import Mathlib

/-!
Shallow embedding of `pytos/secureapp/xml_objects/base_types.py`: the
polymorphic auto-type dispatch for the network and service object families,
the Base_Object identity/equality/hash contract, and the link value objects.

Collaborators that live outside the excerpted source (the `xml_tags`
constants, the `XML_Object_Base` attribute map with `set_attrib`/`get_attrib`,
the `SubclassWithIdentifierRegistry` metaclass, Python's builtin `hash` and
`xml.etree.ElementTree.fromstring`) are modelled from the spec and marked as
such in their doc comments.
-/

/-- Association-list lookup, modelling access into a Python dict that is kept
as an insertion-ordered list of key/value bindings (first binding wins). -/
def alookup {α : Type} (k : String) : List (String × α) → Option α
  | [] => Option.none
  | (k2, v) :: rest => if k = k2 then some v else alookup k rest

/-- Modelled from the spec: Python dict item assignment (`setAttribute`) on an
insertion-ordered association list — update the existing binding in place,
otherwise append the new binding at the end. -/
def setAttrib (k v : String) : List (String × String) → List (String × String)
  | [] => [(k, v)]
  | (k2, v2) :: rest => if k = k2 then (k, v) :: rest else (k2, v2) :: setAttrib k v rest

namespace xml_tags

/-- Modelled from the spec: the fully-qualified XSI type attribute key used by
ElementTree when reading the discriminator from a parsed node. -/
def XSI_NAMESPACE_TYPE : String := "\x7bhttp://www.w3.org/2001/XMLSchema-instance\x7dtype"

/-- Modelled from the spec: the prefixed XSI type attribute name written into
the serialized form of an object. -/
def XSI_TYPE : String := "xsi:type"

/-- Modelled from the spec: the namespace declaration attribute name. -/
def NAMESPACE_FIELD_ATTRIB_CONTENT : String := "xmlns:xsi"

/-- Modelled from the spec: the XSI namespace URL. -/
def XSI_NAMESPACE_URL : String := "http://www.w3.org/2001/XMLSchema-instance"

/-- Modelled from the spec: the reference URL attribute name of a link. -/
def HREF : String := "href"

/-- Modelled from the spec: the xml tag of a service element. -/
def SERVICE : String := "service"

/-- Modelled from the spec: the xml tag of a link element. -/
def LINK : String := "link"

/-- Modelled from the spec: the displayName child tag. -/
def DISPLAY_NAME : String := "displayName"

/-- Modelled from the spec: the global child tag. -/
def GLOBAL : String := "global"

/-- Modelled from the spec: the id child tag. -/
def ID : String := "id"

/-- Modelled from the spec: the name child tag. -/
def NAME : String := "name"

/-- Modelled from the spec: the type child tag. -/
def TYPE : String := "type"

/-- Modelled from the spec: the uid child tag. -/
def UID : String := "uid"

/-- Modelled from the spec: the applicationId child tag. -/
def APPLICATION_ID : String := "applicationId"

end xml_tags

/-- An XML element as seen through the generic node wrapper interface of the
spec: an attribute map and a map from child tag to child element text. -/
structure XmlNode where
  attrib : List (String × String)
  children : List (String × String)
  deriving Repr, DecidableEq

/-- Python exceptions raised by the embedded code: `ValueError(msg)` and
`KeyError(key)`. -/
inductive PyErr where
  | valueError (msg : String)
  | keyError (key : String)
  deriving Repr, DecidableEq

/-- The Python values that can appear as an object id: `None` or an int; used
to state what the builtin `hash` is applied to. -/
inductive PyVal where
  | pynone
  | pyint (i : Int)
  | pystr (s : String)
  deriving Repr, DecidableEq

/-- The Python value stored in the `id` field (an int or `None`). -/
def pyValOfOptInt : Option Int → PyVal
  | Option.none => PyVal.pynone
  | some i => PyVal.pyint i

/-- Python `str()` applied to the `id` field: `"None"` for `None`, the decimal
rendering for an int. -/
def pyStrOfOptInt : Option Int → String
  | Option.none => "None"
  | some i => toString i

/-- Modelled from the spec: `getChildText` of the generic node wrapper,
embedding `get_xml_text_value(xml_node, tag)`. -/
def get_xml_text_value (n : XmlNode) (tag : String) : Option String :=
  alookup tag n.children

/-- Modelled from the spec: `getChildInt` of the generic node wrapper,
embedding `get_xml_int_value(xml_node, tag)`. -/
def get_xml_int_value (n : XmlNode) (tag : String) : Option Int :=
  (alookup tag n.children).bind String.toInt?

/-- `Base_Object`: the common identity fields plus the attribute map inherited
from `XML_Object_Base` (the latter modelled from the spec). -/
structure Base_Object where
  xml_tag : String
  attribs : List (String × String)
  id : Option Int
  name : Option String
  type : Option String
  display_name : Option String
  global_ : Option String
  application_id : Option Int
  deriving Repr, DecidableEq

/-- `Base_Object.__init__(xml_tag, display_name, is_global, object_id, name,
object_type, application_id)`: stores the fields and sets the namespace
declaration attribute. -/
def Base_Object.init (xml_tag : String) (display_name is_global : Option String)
    (object_id : Option Int) (name object_type : Option String)
    (application_id : Option Int) : Base_Object :=
  { xml_tag := xml_tag,
    attribs := setAttrib xml_tags.NAMESPACE_FIELD_ATTRIB_CONTENT xml_tags.XSI_NAMESPACE_URL [],
    id := object_id,
    name := name,
    type := object_type,
    display_name := display_name,
    global_ := is_global,
    application_id := application_id }

/-- Modelled from the spec: `getAttribute` of the wrapper base class. -/
def Base_Object.get_attrib (o : Base_Object) (k : String) : Option String :=
  alookup k o.attribs

/-- `Base_Object._key()`: the tuple of identity fields used for equality. -/
def Base_Object.key (o : Base_Object) :
    Option Int × Option String × Option String × Option String × Option String × Option Int :=
  (o.id, o.name, o.type, o.display_name, o.global_, o.application_id)

/-- Modelled from the spec: `__eq__` of the wrapper base class compares the
`_key()` tuples (the spec states equality is defined from the identity
fields). -/
def Base_Object.eq (a b : Base_Object) : Bool :=
  decide (Base_Object.key a = Base_Object.key b)

/-- `Base_Object.__hash__`: `hash(self.id)` for the Python builtin `hash`,
which is passed in as `h` since it is a runtime primitive. -/
def Base_Object.pyhash (h : PyVal → Int) (o : Base_Object) : Int :=
  h (pyValOfOptInt o.id)

/-- `Network_Object.__init__`: the base constructor followed by setting the
XSI type attribute to the variant discriminator `attr_type`. -/
def Network_Object.init (xml_tag : String) (display_name is_global : Option String)
    (object_id : Option Int) (name object_type : Option String) (attr_type : String)
    (application_id : Option Int) : Base_Object :=
  let o := Base_Object.init xml_tag display_name is_global object_id name object_type application_id
  { o with attribs := setAttrib xml_tags.XSI_TYPE attr_type o.attribs }

/-- `Network_Object.__hash__`: `hash(str(self.id))`. -/
def Network_Object.pyhash (h : PyVal → Int) (o : Base_Object) : Int :=
  h (PyVal.pystr (pyStrOfOptInt o.id))

/-- `Service_Object.__init__`: identical in the source to the network variant
constructor — base constructor plus the XSI type attribute. -/
def Service_Object.init (xml_tag : String) (display_name is_global : Option String)
    (object_id : Option Int) (name object_type : Option String) (attr_type : String)
    (application_id : Option Int) : Base_Object :=
  let o := Base_Object.init xml_tag display_name is_global object_id name object_type application_id
  { o with attribs := setAttrib xml_tags.XSI_TYPE attr_type o.attribs }

/-- `Service_Object.__hash__`: `hash(str(self.id))`. -/
def Service_Object.pyhash (h : PyVal → Int) (o : Base_Object) : Int :=
  h (PyVal.pystr (pyStrOfOptInt o.id))

/-- The identity fields a concrete variant parser extracts from a node before
calling the family constructor. -/
structure BaseFields where
  display_name : Option String
  is_global : Option String
  object_id : Option Int
  name : Option String
  object_type : Option String
  application_id : Option Int
  deriving Repr, DecidableEq

/-- Modelled from the spec: a concrete variant of a family — its xml tag, its
discriminator constant, and its field-extraction routine. Extraction is kept
in state-passing style (it returns the possibly-updated node) so the
frame property over the input node is expressible. -/
structure Variant where
  xmlTag : String
  attrType : String
  extract : XmlNode → BaseFields × XmlNode

/-- A network variant's `from_xml_node`: extract the identity fields and
construct the typed object through `Network_Object.__init__` with the
variant's own discriminator. -/
def Variant.net_from_xml_node (v : Variant) (n : XmlNode) : Base_Object × XmlNode :=
  let r := v.extract n
  (Network_Object.init v.xmlTag r.1.display_name r.1.is_global r.1.object_id r.1.name
    r.1.object_type v.attrType r.1.application_id, r.2)

/-- A service variant's `from_xml_node`: same shape through
`Service_Object.__init__`. -/
def Variant.svc_from_xml_node (v : Variant) (n : XmlNode) : Base_Object × XmlNode :=
  let r := v.extract n
  (Service_Object.init v.xmlTag r.1.display_name r.1.is_global r.1.object_id r.1.name
    r.1.object_type v.attrType r.1.application_id, r.2)

/-- Modelled from the spec: the two per-family registries populated by the
`SubclassWithIdentifierRegistry` metaclass, one mapping per family. -/
structure Env where
  networkRegistry : List (String × Variant)
  serviceRegistry : List (String × Variant)

/-- Modelled from the spec: the metaclass registers every concrete variant
under its own discriminator, so each registry entry's key is the registered
variant's `attrType`. -/
def WfRegistry (reg : List (String × Variant)) : Prop :=
  ∀ p ∈ reg, p.2.attrType = p.1

/-- `Network_Object.from_xml_node_auto_type`: read the XSI type attribute
(ValueError on a missing attribute), look the value up in the network
registry (ValueError naming the value if absent), else delegate to the
resolved variant's `from_xml_node`. The input node is threaded through so
mutation of it is observable. -/
def Network_Object.from_xml_node_auto_type (env : Env) (n : XmlNode) :
    Except PyErr Base_Object × XmlNode :=
  match alookup xml_tags.XSI_NAMESPACE_TYPE n.attrib with
  | Option.none => (Except.error (PyErr.valueError "XML Node is missing type attribute"), n)
  | some network_object_type =>
    match alookup network_object_type env.networkRegistry with
    | Option.none =>
      (Except.error (PyErr.valueError ("Unknown network object type " ++ network_object_type)), n)
    | some v =>
      let r := Variant.net_from_xml_node v n
      (Except.ok r.1, r.2)

/-- `Service_Object.from_xml_node_auto_type`: same steps against the service
registry; the unknown-type message still says "network", as in the source. -/
def Service_Object.from_xml_node_auto_type (env : Env) (n : XmlNode) :
    Except PyErr Base_Object × XmlNode :=
  match alookup xml_tags.XSI_NAMESPACE_TYPE n.attrib with
  | Option.none => (Except.error (PyErr.valueError "XML Node is missing type attribute"), n)
  | some service_type =>
    match alookup service_type env.serviceRegistry with
    | Option.none =>
      (Except.error (PyErr.valueError ("Unknown network object type " ++ service_type)), n)
    | some v =>
      let r := Variant.svc_from_xml_node v n
      (Except.ok r.1, r.2)

/-- `Network_Object.from_xml_string_auto_type`: parse the text into a node
(the ElementTree parser is passed in as `parse`, modelled from the spec) and
delegate to the network node-based dispatcher. -/
def Network_Object.from_xml_string_auto_type (parse : String → Except PyErr XmlNode)
    (env : Env) (xml_string : String) : Except PyErr Base_Object :=
  match parse xml_string with
  | Except.error e => Except.error e
  | Except.ok xml_node => (Network_Object.from_xml_node_auto_type env xml_node).1

/-- `Service_Object.from_xml_string_auto_type`: parse the text into a node and
then, exactly as the source does, delegate to
`Network_Object.from_xml_node_auto_type` rather than the service family's own
node dispatcher. -/
def Service_Object.from_xml_string_auto_type (parse : String → Except PyErr XmlNode)
    (env : Env) (xml_string : String) : Except PyErr Base_Object :=
  match parse xml_string with
  | Except.error e => Except.error e
  | Except.ok xml_node => (Network_Object.from_xml_node_auto_type env xml_node).1

/-- `Base_Service`: a `Base_Object` with the extra `uid` field. -/
structure Base_Service where
  base : Base_Object
  uid : Option String
  deriving Repr, DecidableEq

/-- `Base_Service.__init__`: store `uid`, then the base constructor with the
service xml tag. -/
def Base_Service.init (display_name is_global : Option String) (service_id : Option Int)
    (name service_type uid : Option String) (application_id : Option Int) : Base_Service :=
  { base := Base_Object.init xml_tags.SERVICE display_name is_global service_id name
      service_type application_id,
    uid := uid }

/-- `Base_Service.from_xml_node`: reads the identity fields and uid from the
node through the child accessors and constructs the service; the node is
returned unchanged because the source only calls getter accessors on it. -/
def Base_Service.from_xml_node (n : XmlNode) : Base_Service × XmlNode :=
  (Base_Service.init (get_xml_text_value n xml_tags.DISPLAY_NAME)
    (get_xml_text_value n xml_tags.GLOBAL)
    (get_xml_int_value n xml_tags.ID)
    (get_xml_text_value n xml_tags.NAME)
    (get_xml_text_value n xml_tags.TYPE)
    (get_xml_text_value n xml_tags.UID)
    (get_xml_int_value n xml_tags.APPLICATION_ID), n)

/-- `URL_Link`: a link element carrying its attribute map. -/
structure URL_Link where
  xml_tag : String
  attribs : List (String × String)
  deriving Repr, DecidableEq

/-- `URL_Link.__init__(url)`: sets the namespace declaration attribute and
then the href attribute to `url`. -/
def URL_Link.init (url : String) : URL_Link :=
  { xml_tag := xml_tags.LINK,
    attribs := setAttrib xml_tags.HREF url
      (setAttrib xml_tags.NAMESPACE_FIELD_ATTRIB_CONTENT xml_tags.XSI_NAMESPACE_URL []) }

/-- `URL_Link.from_xml_node`: `xml_node.attrib[HREF]` — a KeyError propagates
when the attribute is absent, otherwise the constructor is called with the
attribute value. -/
def URL_Link.from_xml_node (n : XmlNode) : Except PyErr URL_Link :=
  match alookup xml_tags.HREF n.attrib with
  | Option.none => Except.error (PyErr.keyError xml_tags.HREF)
  | some url => Except.ok (URL_Link.init url)

/-- `Base_Link_Target`: identity fields plus the embedded link. -/
structure Base_Link_Target where
  xml_tag : String
  id : Option Int
  display_name : Option String
  name : Option String
  link : URL_Link
  deriving Repr, DecidableEq

/-- `Base_Link_Target.__init__(xml_tag, connection_id, display_name, name,
link)`. -/
def Base_Link_Target.init (xml_tag : String) (connection_id : Option Int)
    (display_name name : Option String) (link : URL_Link) : Base_Link_Target :=
  { xml_tag := xml_tag,
    id := connection_id,
    display_name := display_name,
    name := name,
    link := link }

/-- `Base_Link_Target.get_reference_link`: `self.link.get_attrib(HREF)`. -/
def Base_Link_Target.get_reference_link (o : Base_Link_Target) : Option String :=
  alookup xml_tags.HREF o.link.attribs

/-- A concrete read-only field extraction over the child accessors, used by
the sample variants below. -/
def hostExtract (n : XmlNode) : BaseFields × XmlNode :=
  ({ display_name := get_xml_text_value n xml_tags.DISPLAY_NAME,
     is_global := get_xml_text_value n xml_tags.GLOBAL,
     object_id := get_xml_int_value n xml_tags.ID,
     name := get_xml_text_value n xml_tags.NAME,
     object_type := get_xml_text_value n xml_tags.TYPE,
     application_id := get_xml_int_value n xml_tags.APPLICATION_ID }, n)

/-- A sample network variant registered under "host_object". -/
def hostVariant : Variant :=
  { xmlTag := "host", attrType := "host_object", extract := hostExtract }

/-- A sample service variant registered under "tcp_service". -/
def tcpVariant : Variant :=
  { xmlTag := xml_tags.SERVICE, attrType := "tcp_service", extract := hostExtract }

/-- A sample environment with one variant registered in each family. -/
def sampleEnv : Env :=
  { networkRegistry := [("host_object", hostVariant)],
    serviceRegistry := [("tcp_service", tcpVariant)] }

/-- An environment where "tcp_service" is registered only with the service
family, as happens for every real service variant. -/
def bugEnv : Env :=
  { networkRegistry := [],
    serviceRegistry := [("tcp_service", tcpVariant)] }

/-- A node whose discriminator is the registered "host_object". -/
def hostNode : XmlNode :=
  { attrib := [(xml_tags.XSI_NAMESPACE_TYPE, "host_object")],
    children := [(xml_tags.ID, "5"), (xml_tags.NAME, "srv1"), (xml_tags.TYPE, "host"),
      (xml_tags.DISPLAY_NAME, "srv1"), (xml_tags.GLOBAL, "false")] }

/-- A node whose discriminator is the service-registered "tcp_service". -/
def tcpNode : XmlNode :=
  { attrib := [(xml_tags.XSI_NAMESPACE_TYPE, "tcp_service")],
    children := [(xml_tags.ID, "7"), (xml_tags.NAME, "http")] }

/-- A node whose discriminator is the unregistered "range_object". -/
def rangeNode : XmlNode :=
  { attrib := [(xml_tags.XSI_NAMESPACE_TYPE, "range_object")], children := [] }

/-- A node with no attributes at all. -/
def emptyNode : XmlNode := { attrib := [], children := [] }

/-- A parser stub standing in for `ET.fromstring`, returning a fixed node. -/
def parseConst (n : XmlNode) : String → Except PyErr XmlNode :=
  fun _ => Except.ok n

/-- A concrete stand-in for the Python builtin `hash` in witnesses. -/
def sampleHash : PyVal → Int
  | PyVal.pynone => 0
  | PyVal.pyint i => i
  | PyVal.pystr s => Int.ofNat s.length

/-- A concrete base object with id 1. -/
def objA : Base_Object :=
  Base_Object.init "network_object" (some "srv1") (some "false") (some 1) (some "srv1")
    (some "host") Option.none

/-- The same field values as `objA` except for id 2. -/
def objB : Base_Object :=
  Base_Object.init "network_object" (some "srv1") (some "false") (some 2) (some "srv1")
    (some "host") Option.none

/-- The same id as `objA` but a different name. -/
def objC : Base_Object :=
  Base_Object.init "network_object" (some "other") (some "false") (some 1) (some "other")
    (some "host") Option.none

/-- A successful association-list lookup yields a binding of the list. -/
theorem alookup_mem {α : Type} {k : String} {v : α} :
    ∀ {l : List (String × α)}, alookup k l = some v → (k, v) ∈ l := by
  intro l
  induction l with
  | nil => intro h; simp [alookup] at h
  | cons p rest ih =>
    intro h
    obtain ⟨k2, v2⟩ := p
    by_cases hk : k = k2
    · subst hk
      simp [alookup] at h
      subst h
      exact List.mem_cons_self _ _
    · simp [alookup, hk] at h
      exact List.mem_cons_of_mem _ (ih h)

/-- The network constructor records the discriminator in the XSI type
attribute of the constructed object. -/
theorem net_init_get_xsi_type (xml_tag : String) (dn ig : Option String) (oid : Option Int)
    (nm ty : Option String) (attr_type : String) (aid : Option Int) :
    Base_Object.get_attrib (Network_Object.init xml_tag dn ig oid nm ty attr_type aid)
      xml_tags.XSI_TYPE = some attr_type := rfl

/-- The service constructor records the discriminator in the XSI type
attribute of the constructed object. -/
theorem svc_init_get_xsi_type (xml_tag : String) (dn ig : Option String) (oid : Option Int)
    (nm ty : Option String) (attr_type : String) (aid : Option Int) :
    Base_Object.get_attrib (Service_Object.init xml_tag dn ig oid nm ty attr_type aid)
      xml_tags.XSI_TYPE = some attr_type := rfl

/-- Claim C2: when the node has no XSI type attribute, both the network and
the service `from_xml_node_auto_type` fail with the "missing type attribute"
ValueError rather than returning any object. -/
theorem auto_type_missing_attribute (env : Env) (n : XmlNode)
    (hmiss : alookup xml_tags.XSI_NAMESPACE_TYPE n.attrib = Option.none) :
    (Network_Object.from_xml_node_auto_type env n).1 =
        Except.error (PyErr.valueError "XML Node is missing type attribute") ∧
    (Service_Object.from_xml_node_auto_type env n).1 =
        Except.error (PyErr.valueError "XML Node is missing type attribute") := by
  constructor
  · simp [Network_Object.from_xml_node_auto_type, hmiss]
  · simp [Service_Object.from_xml_node_auto_type, hmiss]

/-- Claim C2 witness: the empty node triggers the missing-attribute error in
both families. -/
theorem auto_type_missing_attribute_witness :
    alookup xml_tags.XSI_NAMESPACE_TYPE emptyNode.attrib = Option.none ∧
    (Network_Object.from_xml_node_auto_type sampleEnv emptyNode).1 =
        Except.error (PyErr.valueError "XML Node is missing type attribute") ∧
    (Service_Object.from_xml_node_auto_type sampleEnv emptyNode).1 =
        Except.error (PyErr.valueError "XML Node is missing type attribute") := by
  refine ⟨rfl, ?_⟩
  exact auto_type_missing_attribute sampleEnv emptyNode rfl

/-- Claim C3: when the discriminator read from the node has no entry in the
family registry, both families fail with a ValueError whose message contains
the offending discriminator value verbatim. -/
theorem auto_type_unknown_type (env : Env) (n : XmlNode) (t : String)
    (ht : alookup xml_tags.XSI_NAMESPACE_TYPE n.attrib = some t)
    (hnet : alookup t env.networkRegistry = Option.none)
    (hsvc : alookup t env.serviceRegistry = Option.none) :
    (Network_Object.from_xml_node_auto_type env n).1 =
        Except.error (PyErr.valueError ("Unknown network object type " ++ t)) ∧
    (Service_Object.from_xml_node_auto_type env n).1 =
        Except.error (PyErr.valueError ("Unknown network object type " ++ t)) ∧
    (∃ pre suf, "Unknown network object type " ++ t = pre ++ t ++ suf) := by
  refine ⟨?_, ?_, "Unknown network object type ", "", by simp⟩
  · simp [Network_Object.from_xml_node_auto_type, ht, hnet]
  · simp [Service_Object.from_xml_node_auto_type, ht, hsvc]

/-- Claim C3 witness: the unregistered discriminator "range_object" produces
the error naming it in both families. -/
theorem auto_type_unknown_type_witness :
    (Network_Object.from_xml_node_auto_type sampleEnv rangeNode).1 =
        Except.error (PyErr.valueError "Unknown network object type range_object") ∧
    (Service_Object.from_xml_node_auto_type sampleEnv rangeNode).1 =
        Except.error (PyErr.valueError "Unknown network object type range_object") := by
  have h := auto_type_unknown_type sampleEnv rangeNode "range_object" rfl rfl rfl
  exact ⟨h.1, h.2.1⟩

/-- Claim C10: the service dispatcher's unknown-type error message is the
network-family wording "Unknown network object type <value>", even though the
lookup failed against the service registry. -/
theorem service_unknown_type_says_network (env : Env) (n : XmlNode) (t : String)
    (ht : alookup xml_tags.XSI_NAMESPACE_TYPE n.attrib = some t)
    (hsvc : alookup t env.serviceRegistry = Option.none) :
    (Service_Object.from_xml_node_auto_type env n).1 =
        Except.error (PyErr.valueError ("Unknown network object type " ++ t)) := by
  simp [Service_Object.from_xml_node_auto_type, ht, hsvc]

/-- Claim C10 witness: an unregistered service discriminator is reported as an
unknown network object type. -/
theorem service_unknown_type_says_network_witness :
    (Service_Object.from_xml_node_auto_type bugEnv rangeNode).1 =
        Except.error (PyErr.valueError "Unknown network object type range_object") :=
  service_unknown_type_says_network bugEnv rangeNode "range_object" rfl rfl

/-- Claim C8: `URL_Link.from_xml_node` raises a propagated KeyError when the
href attribute is absent, and otherwise returns a link whose href attribute
is exactly the node's attribute value. -/
theorem url_link_from_xml_node_contract (n : XmlNode) :
    (alookup xml_tags.HREF n.attrib = Option.none →
      URL_Link.from_xml_node n = Except.error (PyErr.keyError xml_tags.HREF)) ∧
    (∀ u, alookup xml_tags.HREF n.attrib = some u →
      URL_Link.from_xml_node n = Except.ok (URL_Link.init u) ∧
      alookup xml_tags.HREF (URL_Link.init u).attribs = some u) := by
  constructor
  · intro h
    simp [URL_Link.from_xml_node, h]
  · intro u h
    refine ⟨by simp [URL_Link.from_xml_node, h], rfl⟩

/-- Claim C8 witness: both branches at concrete nodes. -/
theorem url_link_from_xml_node_contract_witness :
    URL_Link.from_xml_node emptyNode = Except.error (PyErr.keyError xml_tags.HREF) ∧
    URL_Link.from_xml_node { attrib := [("href", "https://api/objects/5")], children := [] } =
      Except.ok (URL_Link.init "https://api/objects/5") := by
  constructor
  · exact (url_link_from_xml_node_contract emptyNode).1 rfl
  · exact ((url_link_from_xml_node_contract
      { attrib := [("href", "https://api/objects/5")], children := [] }).2
      "https://api/objects/5" rfl).1

/-- Claim C9: a link target whose embedded link was constructed from the URL
`u` answers `u` from `get_reference_link`. -/
theorem get_reference_link_of_url (xml_tag : String) (cid : Option Int)
    (dn nm : Option String) (u : String) :
    (Base_Link_Target.init xml_tag cid dn nm (URL_Link.init u)).get_reference_link = some u := rfl

/-- The object built by a network variant always answers the variant's own
discriminator from its XSI type attribute. -/
theorem net_variant_attr (v : Variant) (n : XmlNode) :
    Base_Object.get_attrib (Variant.net_from_xml_node v n).1 xml_tags.XSI_TYPE =
      some v.attrType := rfl

/-- The object built by a service variant always answers the variant's own
discriminator from its XSI type attribute. -/
theorem svc_variant_attr (v : Variant) (n : XmlNode) :
    Base_Object.get_attrib (Variant.svc_from_xml_node v n).1 xml_tags.XSI_TYPE =
      some v.attrType := rfl

/-- Claim C4: key-based equality holds exactly when all six identity fields
agree pairwise; in particular a differing id alone forces inequality. -/
theorem base_object_eq_iff (a b : Base_Object) :
    (Base_Object.eq a b = true ↔
      (a.id = b.id ∧ a.name = b.name ∧ a.type = b.type ∧ a.display_name = b.display_name ∧
       a.global_ = b.global_ ∧ a.application_id = b.application_id)) ∧
    (a.id ≠ b.id → Base_Object.eq a b = false) := by
  constructor
  · simp [Base_Object.eq, Base_Object.key, Prod.ext_iff]
  · intro hne
    simp only [Base_Object.eq, Base_Object.key, decide_eq_false_iff_not]
    intro h
    exact hne (congrArg Prod.fst h)

/-- Claim C4 witness: two objects identical except for id compare unequal. -/
theorem base_object_eq_iff_witness : Base_Object.eq objA objB = false :=
  (base_object_eq_iff objA objB).2 (by decide)

/-- Claim C5: a base object hashes by the raw id value alone — so equal ids
give equal hashes whatever the other fields are — while the network and
service object hash routines hash the string form of the id. -/
theorem pyhash_contract (h : PyVal → Int) (a b : Base_Object) :
    Base_Object.pyhash h a = h (pyValOfOptInt a.id) ∧
    (a.id = b.id → Base_Object.pyhash h a = Base_Object.pyhash h b) ∧
    Network_Object.pyhash h a = h (PyVal.pystr (pyStrOfOptInt a.id)) ∧
    Service_Object.pyhash h a = h (PyVal.pystr (pyStrOfOptInt a.id)) := by
  refine ⟨rfl, ?_, rfl, rfl⟩
  intro hid
  simp [Base_Object.pyhash, hid]

/-- Claim C5 witness: objects sharing id 1 but differing elsewhere share the
base hash under a concrete hash function. -/
theorem pyhash_contract_witness :
    Base_Object.pyhash sampleHash objA = Base_Object.pyhash sampleHash objC :=
  (pyhash_contract sampleHash objA objC).2.1 (by decide)

/-- Claim C6: when the node's discriminator `d` is registered, each family's
dispatcher returns exactly the object produced by the variant resolved from
the registry entry for `d`, and that object's XSI type attribute is `d`
whenever the registry is populated the way the metaclass populates it. -/
theorem auto_type_dispatch_correct (env : Env) (n : XmlNode) (d : String)
    (hd : alookup xml_tags.XSI_NAMESPACE_TYPE n.attrib = some d) :
    (∀ v, alookup d env.networkRegistry = some v → WfRegistry env.networkRegistry →
      (Network_Object.from_xml_node_auto_type env n).1 =
          Except.ok (Variant.net_from_xml_node v n).1 ∧
      Base_Object.get_attrib (Variant.net_from_xml_node v n).1 xml_tags.XSI_TYPE = some d) ∧
    (∀ v, alookup d env.serviceRegistry = some v → WfRegistry env.serviceRegistry →
      (Service_Object.from_xml_node_auto_type env n).1 =
          Except.ok (Variant.svc_from_xml_node v n).1 ∧
      Base_Object.get_attrib (Variant.svc_from_xml_node v n).1 xml_tags.XSI_TYPE = some d) := by
  constructor
  · intro v hv hwf
    have hattr : v.attrType = d := hwf (d, v) (alookup_mem hv)
    refine ⟨by simp [Network_Object.from_xml_node_auto_type, hd, hv], ?_⟩
    rw [net_variant_attr, hattr]
  · intro v hv hwf
    have hattr : v.attrType = d := hwf (d, v) (alookup_mem hv)
    refine ⟨by simp [Service_Object.from_xml_node_auto_type, hd, hv], ?_⟩
    rw [svc_variant_attr, hattr]

/-- Claim C6 witness: dispatching a node tagged "host_object" through the
sample network registry yields the host variant's object, tagged
"host_object". -/
theorem auto_type_dispatch_correct_witness :
    (Network_Object.from_xml_node_auto_type sampleEnv hostNode).1 =
      Except.ok (Variant.net_from_xml_node hostVariant hostNode).1 ∧
    Base_Object.get_attrib (Variant.net_from_xml_node hostVariant hostNode).1
      xml_tags.XSI_TYPE = some "host_object" := by
  refine (auto_type_dispatch_correct sampleEnv hostNode "host_object" rfl).1 hostVariant rfl ?_
  intro p hp
  simp [sampleEnv] at hp
  subst hp
  rfl

/-- Claim C7: when every registered variant's extraction leaves the node it
reads unchanged, both dispatchers return the input node unchanged, on the
missing-attribute path, the unknown-type path and the success path alike. -/
theorem auto_type_preserves_node (env : Env) (n : XmlNode)
    (hnet : ∀ p ∈ env.networkRegistry, ∀ m, (p.2.extract m).2 = m)
    (hsvc : ∀ p ∈ env.serviceRegistry, ∀ m, (p.2.extract m).2 = m) :
    (Network_Object.from_xml_node_auto_type env n).2 = n ∧
    (Service_Object.from_xml_node_auto_type env n).2 = n := by
  constructor
  · cases h1 : alookup xml_tags.XSI_NAMESPACE_TYPE n.attrib with
    | none => simp [Network_Object.from_xml_node_auto_type, h1]
    | some t =>
      cases h2 : alookup t env.networkRegistry with
      | none => simp [Network_Object.from_xml_node_auto_type, h1, h2]
      | some v =>
        have he := hnet (t, v) (alookup_mem h2) n
        simp [Network_Object.from_xml_node_auto_type, h1, h2, Variant.net_from_xml_node]
        exact he
  · cases h1 : alookup xml_tags.XSI_NAMESPACE_TYPE n.attrib with
    | none => simp [Service_Object.from_xml_node_auto_type, h1]
    | some t =>
      cases h2 : alookup t env.serviceRegistry with
      | none => simp [Service_Object.from_xml_node_auto_type, h1, h2]
      | some v =>
        have he := hsvc (t, v) (alookup_mem h2) n
        simp [Service_Object.from_xml_node_auto_type, h1, h2, Variant.svc_from_xml_node]
        exact he

/-- Claim C7 witness: the sample registries (whose host extraction only calls
the read accessors) leave the dispatched node intact. -/
theorem auto_type_preserves_node_witness :
    (Network_Object.from_xml_node_auto_type sampleEnv hostNode).2 = hostNode ∧
    (Service_Object.from_xml_node_auto_type sampleEnv hostNode).2 = hostNode := by
  refine auto_type_preserves_node sampleEnv hostNode ?_ ?_
  · intro p hp m
    simp [sampleEnv] at hp
    subst hp
    rfl
  · intro p hp m
    simp [sampleEnv] at hp
    subst hp
    rfl

/-- Claim C1: `Service_Object.from_xml_string_auto_type` resolves through the
network registry, not the service one — with "tcp_service" registered only in
the service registry, the string path fails with the network unknown-type
error even though the service node dispatcher resolves the same node to the
registered tcp variant. -/
theorem service_from_xml_string_uses_network_registry :
    Service_Object.from_xml_string_auto_type (parseConst tcpNode) bugEnv "<service/>" =
      Except.error (PyErr.valueError "Unknown network object type tcp_service") ∧
    alookup "tcp_service" bugEnv.serviceRegistry = some tcpVariant ∧
    (Service_Object.from_xml_node_auto_type bugEnv tcpNode).1 =
      Except.ok (Variant.svc_from_xml_node tcpVariant tcpNode).1 := by
  refine ⟨?_, rfl, rfl⟩
  rfl
